import Mathlib

/-!
Shallow embedding of the Floppy execution core (`floppy/node.py`).

The embedding models the port/value layer (`Info`, `InputInfo`, `OutputInfo`),
the default node protocol (`check`/`run`/`notify`), the registry hint matching
(`matchHint` and friends), and the control-flow node family (`SwitchNode`,
`Loop`, `ForEach`) as executable Lean functions over an explicit `Value` type
standing for the Python objects that flow through ports.

Conventions of the embedding:
* `Value.none` models Python `None`; `Value.str ""` models the empty-string
  literal that the schema layer uses as the implicit port default.
* A result of `Except.error e` models a Python exception of kind `e`
  propagating out of the modelled call, with the receiver object left
  unmodified (CPython raises before any of the relevant attribute
  assignments in every modelled code path).
* Port types (`varType`) range over the Python builtins actually used as port
  types in the repository: `object`, `bool`, `int`, `float`, `str`.  The
  `floppy.types.Type` metatype branch of `InputInfo.__call__` is therefore
  never taken and is not modelled (no node in the repository declares a port
  of such a type).
* Python builtins (`bool(x)`, `int(x)`, `float(x)`, `str(x)`, iteration,
  indexing) are modelled by the `py*` functions below, faithfully for the
  value shapes that occur in the repository (e.g. `int("")` raises
  `ValueError`, negative list indices count from the end).
-/

/-- The Python value types used as port types in the repository. -/
inductive VarType
  | object
  | bool
  | int
  | float
  | str
deriving DecidableEq, Repr

/-- Python runtime values flowing through ports.  `none` is Python `None`;
floats are modelled as rationals (only their identity, never arithmetic,
matters to the modelled code). -/
inductive Value
  | none
  | bool (b : Bool)
  | int (n : Int)
  | float (q : Rat)
  | str (s : String)
  | list (l : List Value)
deriving Repr

/-- Kinds of Python exceptions the modelled code can raise.  `notReady` is not
a Python exception: it is the marker used by the scenario drivers below for a
cycle attempted while `check()` is false (the external scheduler would defer
the node instead). -/
inductive PyError
  | inputNotAvailable
  | inputAlreadySet
  | valueError
  | typeError
  | attributeError
  | indexError
  | keyError
  | notReady
deriving DecidableEq, Repr

/-- Python truthiness, as used by `bool(x)` and `if x:`. -/
def pyTruthy : Value → Bool
  | Value.none => false
  | Value.bool b => b
  | Value.int n => n != 0
  | Value.float q => q != 0
  | Value.str s => s != ""
  | Value.list l => !l.isEmpty

/-- Models Python `str.strip()` as used by `int(s)`/`float(s)` literal
parsing: drop whitespace from both ends (character-level, so that concrete
evaluations reduce). -/
def pyStrip (s : String) : List Char :=
  ((s.toList.dropWhile Char.isWhitespace).reverse.dropWhile
    Char.isWhitespace).reverse

/-- Models Python `str.lower()` (ASCII case folding, which is all the
repository's tags use). -/
def pyLower (s : String) : String :=
  String.mk (s.toList.map Char.toLower)

/-- Models Python `str.upper()` (ASCII case folding). -/
def pyUpper (s : String) : String :=
  String.mk (s.toList.map Char.toUpper)

/-- Models Python `s.startswith(pre)`. -/
def pyStartsWith (s pre : String) : Bool :=
  List.isPrefixOf pre.toList s.toList

/-- Parse a non-empty all-digit character list as a natural number. -/
def digitsToNat? : List Char → Option Nat
  | [] => Option.none
  | cs =>
    if cs.all Char.isDigit then
      Option.some (cs.foldl (fun acc c => 10 * acc + (c.toNat - '0'.toNat)) 0)
    else
      Option.none

/-- Models Python `int(s)` on a string: surrounding whitespace is ignored, an
optional sign is followed by at least one decimal digit; anything else raises
`ValueError`.  (Exotic literal forms such as underscores are not modelled;
the repository never supplies them.) -/
def pyIntOfString (s : String) : Except PyError Int :=
  match pyStrip s with
  | '-' :: rest =>
    match digitsToNat? rest with
    | Option.some n => Except.ok (-(n : Int))
    | Option.none => Except.error PyError.valueError
  | '+' :: rest =>
    match digitsToNat? rest with
    | Option.some n => Except.ok (n : Int)
    | Option.none => Except.error PyError.valueError
  | cs =>
    match digitsToNat? cs with
    | Option.some n => Except.ok (n : Int)
    | Option.none => Except.error PyError.valueError

/-- Models Python `float(s)` on a string: optional sign, digits with an
optional fractional part; anything else raises `ValueError`.  (Exponents and
`inf`/`nan` are not modelled; the repository never supplies them.) -/
def pyFloatOfString (s : String) : Except PyError Rat :=
  let parseUnsigned : List Char → Except PyError Rat := fun cs =>
    match cs.span Char.isDigit with
    | (intPart, []) =>
      match digitsToNat? intPart with
      | Option.some n => Except.ok (n : Rat)
      | Option.none => Except.error PyError.valueError
    | (intPart, '.' :: fracPart) =>
      if (intPart.isEmpty ∧ fracPart.isEmpty) ∨ ¬ fracPart.all Char.isDigit then
        Except.error PyError.valueError
      else
        let ipart : Nat := (digitsToNat? intPart).getD 0
        let fpart : Nat := (digitsToNat? fracPart).getD 0
        Except.ok ((ipart : Rat) + (fpart : Rat) / ((10 : Rat) ^ fracPart.length))
    | _ => Except.error PyError.valueError
  match pyStrip s with
  | '-' :: rest => (parseUnsigned rest).map (fun q => -q)
  | '+' :: rest => parseUnsigned rest
  | cs => parseUnsigned cs

/-- Models Python `str(x)` for the modelled value shapes (the exact rendering
of floats and lists is immaterial to every claim; only `str` on strings is
ever exercised by the repository's port reads). -/
def pyStr : Value → String
  | Value.none => "None"
  | Value.bool b => if b then "True" else "False"
  | Value.int n => toString n
  | Value.float q => toString q
  | Value.str s => s
  | Value.list _ => "[...]"

/-- Models calling the port's type constructor `varType(value)`, as
`InputInfo.__call__` and `Info.setDefault` do. -/
def pyCall (t : VarType) (v : Value) : Except PyError Value :=
  match t with
  | VarType.object =>
    -- never reached by the modelled code: every call site guards
    -- `if not self.varType == object` first (Python `object(x)` would raise)
    Except.error PyError.typeError
  | VarType.bool => Except.ok (Value.bool (pyTruthy v))
  | VarType.int =>
    match v with
    | Value.int n => Except.ok (Value.int n)
    | Value.bool b => Except.ok (Value.int (if b then 1 else 0))
    | Value.float q => Except.ok (Value.int (q.num.tdiv (q.den : Int)))
    | Value.str s => (pyIntOfString s).map Value.int
    | _ => Except.error PyError.typeError
  | VarType.float =>
    match v with
    | Value.float q => Except.ok (Value.float q)
    | Value.int n => Except.ok (Value.float (n : Rat))
    | Value.bool b => Except.ok (Value.float (if b then 1 else 0))
    | Value.str s => (pyFloatOfString s).map Value.float
    | _ => Except.error PyError.typeError
  | VarType.str => Except.ok (Value.str (pyStr v))

/-- Models Python iteration `[... for i in value]`: lists iterate their
elements, strings their characters; other values raise `TypeError`. -/
def pyIter : Value → Except PyError (List Value)
  | Value.list l => Except.ok l
  | Value.str s => Except.ok (s.toList.map (fun c => Value.str c.toString))
  | _ => Except.error PyError.typeError

/-- Models Python indexing `value[i]` (with negative indices counting from the
end); out-of-range indices raise `IndexError`. -/
def pyIndex (v : Value) (i : Int) : Except PyError Value :=
  match v with
  | Value.list l =>
    let n : Int := l.length
    let j : Int := if i < 0 then i + n else i
    if 0 ≤ j ∧ j < n then Except.ok (l.getD j.toNat Value.none)
    else Except.error PyError.indexError
  | Value.str s =>
    let n : Int := s.length
    let j : Int := if i < 0 then i + n else i
    if 0 ≤ j ∧ j < n then
      Except.ok (Value.str ((s.toList.getD j.toNat ' ').toString))
    else Except.error PyError.indexError
  | _ => Except.error PyError.typeError

/-- Is this value Python `None`?  (Models `x != None` tests.) -/
def Value.isNone : Value → Bool
  | Value.none => true
  | _ => false


/-- One input or output port of a node instance (`Info` in `node.py`).
The `owner` back-reference and the pin `ID` are omitted: they are
identity-only bookkeeping used in a diagnostic message and in serialization
ids, and never influence the behaviour the development reasons about. -/
structure Info where
  name : String
  connected : Bool
  varType : VarType
  hints : List String
  default : Value
  valueSet : Bool
  value : Value
  select : Option (List Value)
  list : Bool
deriving Repr

/-- `varType.__name__` for the modelled builtins. -/
def VarType.typeName : VarType → String
  | VarType.object => "object"
  | VarType.bool => "bool"
  | VarType.int => "int"
  | VarType.float => "float"
  | VarType.str => "str"

/-- `Info.__init__`: the constructor's keyword defaults are
`hints=None, default='', select=None, list=False`; when no hints are supplied
the hint list is just the type's name, otherwise the type's name is prepended
to the supplied hints. -/
def Info.init (name : String) (varType : VarType)
    (hints : Option (List String)) (default : Value)
    (select : Option (List Value)) (isList : Bool) : Info :=
  { name := name
    connected := false
    varType := varType
    hints :=
      match hints with
      | Option.none => [varType.typeName]
      | Option.some hs => varType.typeName :: hs
    default := default
    valueSet := false
    value := Value.none
    select := select
    list := isList }

/-- `Info.setDefault`: attempt to coerce the assigned default literal to the
port's declared type, falling back to the empty string on `ValueError`; for
`bool`-typed ports the result is then overridden by the `'TRUE'`/other string
mapping (with a bare-except fallback to the raw value when the literal has no
`.upper`, i.e. is not a string).  The `issubclass(varType, Type)` test of the
source can only fire for `floppy.types.Type` port types, which no node in the
repository declares, so the guard reduces to the `object` test. -/
def Info.setDefault (p : Info) (value : Value) : Except PyError Info :=
  if p.varType = VarType.object then
    Except.ok { p with default := value }
  else do
    let d ←
      match pyCall p.varType value with
      | Except.ok w => Except.ok w
      | Except.error PyError.valueError => Except.ok (Value.str "")
      | Except.error e => Except.error e
    if p.varType = VarType.bool then
      match value with
      | Value.str s =>
        Except.ok { p with default := Value.bool (pyUpper s = "TRUE") }
      | _ =>
        -- `value.upper()` raised (bare except): fall back to the raw value
        Except.ok { p with default := value }
    else
      Except.ok { p with default := d }

/-- `Info.reset`: clears the default, the stored value and the set flag. -/
def Info.reset (p : Info) : Info :=
  { p with default := Value.none, valueSet := false, value := Value.none }

/-- `InputInfo.__call__`: read an input port.  Explicit value first (coerced,
element-wise when the port is a list port), then the default (if non-`None`
and the port is not connected), else `InputNotAvailable` — or `None` when
`noException` is requested. -/
def InputInfo.call (p : Info) (noException : Bool) :
    Except PyError Value :=
  if p.valueSet then
    if p.varType ≠ VarType.object then
      -- the isinstance(varType, MetaType) branch is never taken (see above)
      if p.list then do
        let elems ← pyIter p.value
        let coerced ← elems.mapM (pyCall p.varType)
        Except.ok (Value.list coerced)
      else
        pyCall p.varType p.value
    else
      Except.ok p.value
  else if ¬ (p.default.isNone) ∧ ¬ p.connected then
    if p.varType ≠ VarType.object then
      pyCall p.varType p.default
    else
      Except.ok p.default
  else if noException then
    Except.ok Value.none
  else
    Except.error PyError.inputNotAvailable

/-- `InputInfo.set`: raises `InputAlreadySet` on a non-override write to an
already-set input, otherwise stores the value verbatim and marks it set. -/
def InputInfo.set (p : Info) (value : Value) (override : Bool) :
    Except PyError Info :=
  if p.valueSet ∧ ¬ override then
    Except.error PyError.inputAlreadySet
  else
    Except.ok { p with value := value, valueSet := true }

/-- `InputInfo.setConnected`. -/
def InputInfo.setConnected (p : Info) (value : Bool) : Info :=
  { p with connected := value }

/-- `InputInfo.isAvailable`: a value is set, or a non-`None` default exists
and the port is not connected. -/
def InputInfo.isAvailable (p : Info) : Bool :=
  if p.valueSet then true
  else if ¬ (p.default.isNone) ∧ ¬ p.connected then true
  else false

/-- `OutputInfo.__call__`: store the value and mark it set.  (The
opportunistic `__FloppyType__` tag attachment is debug metadata whose failure
is silently ignored; it is not part of the modelled state.) -/
def OutputInfo.call (p : Info) (value : Value) : Info :=
  { p with value := value, valueSet := true }

/-- Look up an input port by name in a node's ordered input map
(`self.inputs[name]`; names are unique per node). -/
def getInput (inputs : List Info) (name : String) : Option Info :=
  inputs.find? (fun p => p.name = name)

/-- Look up an output port by name (`self.outputs[name]`). -/
def getOutput (outputs : List Info) (name : String) : Option Info :=
  outputs.find? (fun p => p.name = name)

/-- Replace the port with the given name (dict assignment on the ordered
input/output map). -/
def updatePort (ports : List Info) (name : String) (p : Info) : List Info :=
  ports.map (fun q => if q.name = name then p else q)

/-- `self._<name>` on an input: `__getattr__` resolves the name against the
input map and calls the port (with `noException=False`); unknown names raise
`AttributeError`. -/
def readInput (inputs : List Info) (name : String) : Except PyError Value :=
  match getInput inputs name with
  | Option.some p => InputInfo.call p false
  | Option.none => Except.error PyError.attributeError

/-- `Node.setInput`: delegate to the named input's `set`; a name missing from
the input map raises `KeyError`. -/
def Node.setInput (inputs : List Info) (name : String) (value : Value)
    (override : Bool) : Except PyError (List Info) :=
  match getInput inputs name with
  | Option.none => Except.error PyError.keyError
  | Option.some p => do
    let p' ← InputInfo.set p value override
    Except.ok (updatePort inputs name p')

/-- `self._<name>(v)` on an output: resolve the output port and call it. -/
def writeOutput (outputs : List Info) (name : String) (value : Value) :
    Except PyError (List Info) :=
  match getOutput outputs name with
  | Option.none => Except.error PyError.attributeError
  | Option.some p => Except.ok (updatePort outputs name (OutputInfo.call p value))

/-- `self.inputs[name].reset()`. -/
def resetInput (inputs : List Info) (name : String) : List Info :=
  inputs.map (fun q => if q.name = name then Info.reset q else q)

/-- One connection record as reported by the external graph collaborator
(`{outputName, inputNode, inputName}`). -/
structure Conn where
  outputName : String
  inputNode : String
  inputName : String
deriving DecidableEq, Repr

/-- One `nextNode.setInput(nextInput, value, override)` call performed during
`notify`: the downstream node, its input name, the pushed value and whether
the write overrides an already-set value. -/
structure Push where
  inputNode : String
  inputName : String
  value : Value
  override : Bool
deriving Repr

/-- `graph.getConnectionsOfOutput(output)`: the connections of this node
whose output end is the given output port. -/
def getConnectionsOfOutput (conns : List Conn) (name : String) : List Conn :=
  conns.filter (fun c => c.outputName = name)

/-- The push performed for one connection during a control node's `notify`:
the named output's current `value` (these notify overrides read `.value`
directly, without consulting the set flag).  The lookup cannot fail there:
the connection list was filtered by this very output's name. -/
def pushOf (outputs : List Info) (con : Conn) (override : Bool) : Push :=
  { inputNode := con.inputNode
    inputName := con.inputName
    value :=
      match getOutput outputs con.outputName with
      | Option.some o => o.value
      | Option.none => Value.none
    override := override }

/-- `Node.check` (default): true iff every input `isAvailable()`. -/
def Node.check (inputs : List Info) : Bool :=
  inputs.all (fun inp => InputInfo.isAvailable inp)

/-- The push loop of `Node.notify` (default): for every outgoing connection,
in order, push the named output's explicit value if set, else its default,
with `override=True`.  A connection naming an unknown output raises
`KeyError` (in CPython the pushes before the bad record would already have
happened; the modelled result only distinguishes the error itself). -/
def notifyPushes (outputs : List Info) : List Conn → Except PyError (List Push)
  | [] => Except.ok []
  | con :: rest =>
    match getOutput outputs con.outputName with
    | Option.some out => do
      let ps ← notifyPushes outputs rest
      Except.ok ({ inputNode := con.inputNode
                   inputName := con.inputName
                   value := if out.valueSet then out.value else out.default
                   override := true : Push } :: ps)
    | Option.none => Except.error PyError.keyError

/-- `Node.notify` (default): perform the pushes for every outgoing
connection, then reset every input of this node. -/
def Node.notify (inputs outputs : List Info) (connsFrom : List Conn) :
    Except PyError (List Info × List Push) := do
  let pushes ← notifyPushes outputs connsFrom
  Except.ok (inputs.map Info.reset, pushes)

/-- `Node.matchClassTag`: some class tag, lowercased, starts with the query
text (the text itself is compared as given). -/
def Node.matchClassTag (tags : List String) (text : String) : Bool :=
  tags.any (fun tag => pyStartsWith (pyLower tag) text)

/-- `Node.matchInputHint`: `True` for the `"object"` wildcard or when some
hint of some input starts with the text; the Python function otherwise falls
off the end returning `None`, which its only consumer (`matchHint`'s `or`
chain) treats as false. -/
def Node.matchInputHint (inputs : List Info) (text : String) : Bool :=
  if text = "object" then true
  else if inputs.any (fun inp => inp.hints.any (fun hint => pyStartsWith hint text)) then
    true
  else false

/-- `Node.matchOutputHint`: as `matchInputHint`, over the outputs. -/
def Node.matchOutputHint (outputs : List Info) (text : String) : Bool :=
  if text = "object" then true
  else if outputs.any (fun out => out.hints.any (fun hint => pyStartsWith hint text)) then
    true
  else false

/-- `Node.matchHint`: input-hint match or output-hint match or tag match. -/
def Node.matchHint (inputs outputs : List Info) (tags : List String)
    (text : String) : Bool :=
  Node.matchInputHint inputs text || Node.matchOutputHint outputs text ||
    Node.matchClassTag tags text

/-- A schema port as declared by `Input`/`Output` in a node class body: the
declaration's keyword defaults are `hints=None, default='', select=None,
list=False`, handed to `Info.__init__` unchanged. -/
def mkPort (name : String) (varType : VarType) (isList : Bool) : Info :=
  Info.init name varType Option.none (Value.str "") Option.none isList

/-- The readiness scan shared by the `fresh` branch of the control nodes'
`check`: every input except `Control` must be available. -/
def freshCheck (inputs : List Info) : Bool :=
  inputs.all (fun inp => inp.name = "Control" || InputInfo.isAvailable inp)

/-- `SwitchNode` instance state: its ports (in construction order — the
inherited `Start`/`Control` then its own `Switch`; `Final` then
`True`/`False`) and the `fresh` flag (`fresh = false` is the pending-join
state). -/
structure SwitchNode where
  inputs : List Info
  outputs : List Info
  fresh : Bool
deriving Repr

/-- A freshly constructed `SwitchNode`. -/
def SwitchNode.init : SwitchNode :=
  { inputs := [mkPort "Start" VarType.object false,
               mkPort "Control" VarType.object false,
               mkPort "Switch" VarType.bool false]
    outputs := [mkPort "Final" VarType.object false,
                mkPort "True" VarType.object false,
                mkPort "False" VarType.object false]
    fresh := true }

/-- `SwitchNode.check`: fresh — everything but `Control` available;
pending-join — `Control` available (the Python code otherwise returns `None`,
which the driver treats as false). -/
def SwitchNode.check (n : SwitchNode) : Bool :=
  if n.fresh then freshCheck n.inputs
  else
    match getInput n.inputs "Control" with
    | Option.some c => InputInfo.isAvailable c
    | Option.none => false

/-- `SwitchNode.run`: fresh — route `Start` to the `True` or `False` output
according to the boolean read of `Switch`; pending-join — route `Control` to
`Final`. -/
def SwitchNode.run (n : SwitchNode) : Except PyError SwitchNode := do
  if n.fresh then do
    let sw ← readInput n.inputs "Switch"
    if pyTruthy sw then do
      let s ← readInput n.inputs "Start"
      let outs ← writeOutput n.outputs "True" s
      Except.ok { n with outputs := outs }
    else do
      let s ← readInput n.inputs "Start"
      let outs ← writeOutput n.outputs "False" s
      Except.ok { n with outputs := outs }
  else do
    let c ← readInput n.inputs "Control"
    let outs ← writeOutput n.outputs "Final" c
    Except.ok { n with outputs := outs }

/-- `SwitchNode.notify`: fresh — propagate the chosen branch output's
connections (plain, non-override pushes), reset `Start` and `Switch`, enter
pending-join; pending-join — propagate `Final`'s connections and return to
fresh.  Both branches finally reset `Control`. -/
def SwitchNode.notify (n : SwitchNode) (conns : List Conn) :
    Except PyError (SwitchNode × List Push) := do
  if n.fresh then do
    let sw ← readInput n.inputs "Switch"
    let outName := if pyTruthy sw then "True" else "False"
    let pushes := (getConnectionsOfOutput conns outName).map
      (fun con => pushOf n.outputs con false)
    let inputs := resetInput (resetInput n.inputs "Start") "Switch"
    Except.ok ({ n with fresh := false, inputs := resetInput inputs "Control" },
               pushes)
  else
    let pushes := (getConnectionsOfOutput conns "Final").map
      (fun con => pushOf n.outputs con false)
    Except.ok ({ n with fresh := true, inputs := resetInput n.inputs "Control" },
               pushes)

/-- One scheduler cycle against a `SwitchNode`: `run` then `notify` when
`check()` holds, otherwise the node is deferred (`notReady`). -/
def SwitchNode.drive (n : SwitchNode) (conns : List Conn) :
    Except PyError (SwitchNode × List Push) := do
  if n.check then do
    let n' ← n.run
    n'.notify conns
  else
    Except.error PyError.notReady

/-- `Loop` instance state: ports (inherited `Start`/`Control` then
`Iterations`; `Final` then `LoopBody`), the `fresh` flag and the iteration
counter. -/
structure Loop where
  inputs : List Info
  outputs : List Info
  fresh : Bool
  counter : Int
deriving Repr

/-- A freshly constructed `Loop`. -/
def Loop.init : Loop :=
  { inputs := [mkPort "Start" VarType.object false,
               mkPort "Control" VarType.object false,
               mkPort "Iterations" VarType.int false]
    outputs := [mkPort "Final" VarType.object false,
                mkPort "LoopBody" VarType.object false]
    fresh := true
    counter := 0 }

/-- `Loop.check`: fresh — everything but `Control` available; otherwise ready
only while `counter > 0` with `Control` available (with `counter == 0` the
Python code falls through returning `None`: the node is never ready again
until re-armed). -/
def Loop.check (n : Loop) : Bool :=
  if n.fresh then freshCheck n.inputs
  else if n.counter > 0 then
    match getInput n.inputs "Control" with
    | Option.some c => InputInfo.isAvailable c
    | Option.none => false
  else false

/-- `Loop.run`: fresh — capture `Iterations` into the counter and emit
`Start` to `LoopBody`; `counter == 0` — emit `Control` to `Final`; otherwise
decrement the counter and re-emit `Control` to `LoopBody`. -/
def Loop.run (n : Loop) : Except PyError Loop := do
  if n.fresh then do
    let iters ← readInput n.inputs "Iterations"
    let counter ←
      match iters with
      | Value.int k => Except.ok k
      | _ => Except.error PyError.typeError
      -- the `int` coercion of the read guarantees the `Value.int` shape
    let s ← readInput n.inputs "Start"
    let outs ← writeOutput n.outputs "LoopBody" s
    Except.ok { n with outputs := outs, counter := counter, fresh := false }
  else if n.counter = 0 then do
    let c ← readInput n.inputs "Control"
    let outs ← writeOutput n.outputs "Final" c
    Except.ok { n with outputs := outs }
  else do
    let c ← readInput n.inputs "Control"
    let outs ← writeOutput n.outputs "LoopBody" c
    Except.ok { n with counter := n.counter - 1, outputs := outs }

/-- `Loop.notify`: while `counter > 0` propagate `LoopBody`'s connections
(override pushes) and reset `Control`; otherwise propagate `Final`'s
connections (plain pushes), return to fresh and reset every input except
`Iterations`. -/
def Loop.notify (n : Loop) (conns : List Conn) : Loop × List Push :=
  if n.counter > 0 then
    let pushes := (getConnectionsOfOutput conns "LoopBody").map
      (fun con => pushOf n.outputs con true)
    ({ n with inputs := resetInput n.inputs "Control" }, pushes)
  else
    let pushes := (getConnectionsOfOutput conns "Final").map
      (fun con => pushOf n.outputs con false)
    ({ n with fresh := true
              inputs := n.inputs.map
                (fun inp => if inp.name = "Iterations" then inp else Info.reset inp) },
     pushes)

/-- One scheduler cycle against a `Loop`. -/
def Loop.drive (n : Loop) (conns : List Conn) :
    Except PyError (Loop × List Push) := do
  if n.check then do
    let n' ← n.run
    Except.ok (n'.notify conns)
  else
    Except.error PyError.notReady

/-- `ForEach` instance state: ports (the list-typed `Start` replaces the
inherited scalar `Start` in place, then `Control`; `Final` then
`ListElement`), the `fresh`/`done` flags and the index cursor. -/
structure ForEach where
  inputs : List Info
  outputs : List Info
  fresh : Bool
  counter : Int
  done : Bool
deriving Repr

/-- A freshly constructed `ForEach`. -/
def ForEach.init : ForEach :=
  { inputs := [mkPort "Start" VarType.object true,
               mkPort "Control" VarType.object false]
    outputs := [mkPort "Final" VarType.object false,
                mkPort "ListElement" VarType.object false]
    fresh := true
    counter := 0
    done := false }

/-- `ForEach.check`: fresh — everything but `Control` available; otherwise
`Control` available. -/
def ForEach.check (n : ForEach) : Bool :=
  if n.fresh then freshCheck n.inputs
  else
    match getInput n.inputs "Control" with
    | Option.some c => InputInfo.isAvailable c
    | Option.none => false

/-- `ForEach.run`: emit `Start[counter]` to `ListElement`; on `IndexError`
emit the whole `Start` list to `Final` and set `done`.  The cursor is
incremented on both paths (the increment sits after the try/except). -/
def ForEach.run (n : ForEach) : Except PyError ForEach := do
  let n := { n with fresh := false }
  let s ← readInput n.inputs "Start"
  match pyIndex s n.counter with
  | Except.ok elem => do
    let outs ← writeOutput n.outputs "ListElement" elem
    Except.ok { n with outputs := outs, counter := n.counter + 1 }
  | Except.error PyError.indexError => do
    let s2 ← readInput n.inputs "Start"
    let outs ← writeOutput n.outputs "Final" s2
    Except.ok { n with outputs := outs, done := true, counter := n.counter + 1 }
  | Except.error e => Except.error e

/-- `ForEach.notify`: while not `done` propagate `ListElement`'s connections
(override pushes) and reset `Control`; once `done`, propagate `Final`'s
connections (plain pushes), reset every input except `Iterations` (there is
none, so all of them), zero the cursor and clear `fresh`/`done` back to the
initial state. -/
def ForEach.notify (n : ForEach) (conns : List Conn) : ForEach × List Push :=
  if ¬ n.done then
    let pushes := (getConnectionsOfOutput conns "ListElement").map
      (fun con => pushOf n.outputs con true)
    ({ n with inputs := resetInput n.inputs "Control" }, pushes)
  else
    let pushes := (getConnectionsOfOutput conns "Final").map
      (fun con => pushOf n.outputs con false)
    ({ n with fresh := true
              done := false
              counter := 0
              inputs := n.inputs.map
                (fun inp => if inp.name = "Iterations" then inp else Info.reset inp) },
     pushes)

/-- One scheduler cycle against a `ForEach`. -/
def ForEach.drive (n : ForEach) (conns : List Conn) :
    Except PyError (ForEach × List Push) := do
  if n.check then do
    let n' ← n.run
    Except.ok (n'.notify conns)
  else
    Except.error PyError.notReady

/-- The claim-side description of a read's coercion: coercion to `object` is
the identity on the value as a whole (the untyped port performs no coercion);
for a typed port it applies element-wise when the port is flagged as a list
port and scalar-wise otherwise. -/
def specTypeCoerced (t : VarType) (isList : Bool) (v : Value) :
    Except PyError Value :=
  if t = VarType.object then Except.ok v
  else if isList then do
    let elems ← pyIter v
    let coerced ← elems.mapM (pyCall t)
    Except.ok (Value.list coerced)
  else pyCall t v

/-- The claim-side description of the default's coercion on a read: identity
for an `object` port, scalar coercion otherwise (the code never applies the
element-wise path to a default). -/
def specDefaultCoerced (t : VarType) (v : Value) : Except PyError Value :=
  if t = VarType.object then Except.ok v else pyCall t v

/-- The tag match as claim C9 states it: a case-insensitive prefix match,
i.e. both the tag and the query text case-folded. -/
def matchClassTagSpecCI (tags : List String) (text : String) : Bool :=
  tags.any (fun tag => pyStartsWith (pyLower tag) (pyLower text))

/-- The graph used by the loop scenario: `LoopBody` feeds node `body`,
`Final` feeds node `sink`. -/
def loopConns : List Conn :=
  [{ outputName := "LoopBody", inputNode := "body", inputName := "in" },
   { outputName := "Final", inputNode := "sink", inputName := "in" }]

/-- Claim C1's scenario: `Iterations=3`, `Start="S0"`, then ready
check/run/notify cycles with a `Control` refill before each later cycle
(values `"c1"`, `"c2"`, `"c3"`).  Returns the final node state and the
concatenated pushes of all four cycles. -/
def loopTrace : Except PyError (Loop × List Push) := do
  let inputs ← Node.setInput Loop.init.inputs "Start" (Value.str "S0") false
  let inputs ← Node.setInput inputs "Iterations" (Value.int 3) false
  let n : Loop := { Loop.init with inputs := inputs }
  let (n, p1) ← n.drive loopConns
  let inputs ← Node.setInput n.inputs "Control" (Value.str "c1") false
  let (n, p2) ← Loop.drive { n with inputs := inputs } loopConns
  let inputs ← Node.setInput n.inputs "Control" (Value.str "c2") false
  let (n, p3) ← Loop.drive { n with inputs := inputs } loopConns
  let inputs ← Node.setInput n.inputs "Control" (Value.str "c3") false
  let (n, p4) ← Loop.drive { n with inputs := inputs } loopConns
  Except.ok (n, p1 ++ p2 ++ p3 ++ p4)

/-- The graph used by the switch scenario: `True` feeds node `t`, `False`
feeds node `f`, `Final` feeds node `join`. -/
def switchConns : List Conn :=
  [{ outputName := "True", inputNode := "t", inputName := "in" },
   { outputName := "False", inputNode := "f", inputName := "in" },
   { outputName := "Final", inputNode := "join", inputName := "in" }]

/-- Claim C6's first cycle: `Start=S`, `Switch=True`, then one ready
check/run/notify cycle. -/
def switchStep1 (S : Value) : Except PyError (SwitchNode × List Push) := do
  let inputs ← Node.setInput SwitchNode.init.inputs "Start" S false
  let inputs ← Node.setInput inputs "Switch" (Value.bool true) false
  SwitchNode.drive { SwitchNode.init with inputs := inputs } switchConns

/-- Claim C6's second cycle: after the first cycle a downstream branch sets
`Control=C`, then one more ready cycle. -/
def switchStep2 (S C : Value) : Except PyError (SwitchNode × List Push) := do
  let (n, _) ← switchStep1 S
  let inputs ← Node.setInput n.inputs "Control" C false
  SwitchNode.drive { n with inputs := inputs } switchConns

/-- The graph used by the for-each scenario: `ListElement` feeds node `body`,
`Final` feeds node `sink`. -/
def forEachConns : List Conn :=
  [{ outputName := "ListElement", inputNode := "body", inputName := "in" },
   { outputName := "Final", inputNode := "sink", inputName := "in" }]

/-- The list `[1, 2, 3]` claim C7 iterates over. -/
def feStart : Value := Value.list [Value.int 1, Value.int 2, Value.int 3]

/-- Claim C7's scenario: `Start=[1,2,3]` with a `Control` refill before every
cycle, driven through four ready check/run/notify cycles. -/
def feTrace : Except PyError (ForEach × List Push) := do
  let inputs ← Node.setInput ForEach.init.inputs "Start" feStart false
  let inputs ← Node.setInput inputs "Control" (Value.int 0) false
  let (n, p1) ← ForEach.drive { ForEach.init with inputs := inputs } forEachConns
  let inputs ← Node.setInput n.inputs "Control" (Value.int 0) false
  let (n, p2) ← ForEach.drive { n with inputs := inputs } forEachConns
  let inputs ← Node.setInput n.inputs "Control" (Value.int 0) false
  let (n, p3) ← ForEach.drive { n with inputs := inputs } forEachConns
  let inputs ← Node.setInput n.inputs "Control" (Value.int 0) false
  let (n, p4) ← ForEach.drive { n with inputs := inputs } forEachConns
  Except.ok (n, p1 ++ p2 ++ p3 ++ p4)

/-- Helper for the default-notify statement: the value a connection's push
carries — the named output's explicit value if its set flag is true, else
that output's default. -/
def notifyPushValue (outputs : List Info) (con : Conn) : Value :=
  match getOutput outputs con.outputName with
  | Option.some o => if o.valueSet then o.value else o.default
  | Option.none => Value.none

lemma notifyPushes_eq (outputs : List Info) :
    ∀ conns : List Conn,
      (∀ con ∈ conns, (getOutput outputs con.outputName).isSome) →
      notifyPushes outputs conns =
        Except.ok (conns.map (fun con =>
          { inputNode := con.inputNode
            inputName := con.inputName
            value := notifyPushValue outputs con
            override := true })) := by
  intro conns
  induction conns with
  | nil => intro _; rfl
  | cons c cs ih =>
    intro h
    have hc := h c (List.mem_cons_self c cs)
    obtain ⟨o, ho⟩ := Option.isSome_iff_exists.mp hc
    have ih' := ih (fun con hcon => h con (List.mem_cons_of_mem c hcon))
    simp [notifyPushes, ho, ih', notifyPushValue, Bind.bind, Except.bind]

/-- Claim C1: for a counted loop node with `Iterations=3` and `Start=S0`,
driven through ready check/run/notify cycles with a `Control` refill after
each `LoopBody` emission, the code emits `LoopBody=S0` once, then 2 further
`LoopBody` re-emissions of the supplied `Control` values, then 1 `Final`
emission — but that `Final` emission carries `None`, not the third `Control`
value `"c3"` as the claim (and the `ControlNode` docstring: the last set
control input is passed to the finalize output) states: the `run` branch
that would write `Final` requires `counter == 0` while `check` only passes
with `counter > 0`, so the `Final` output is never written.  The node does
return to `fresh` with counter 0. -/
theorem loop_counted_scenario_final_none :
    loopTrace.map (fun r => r.2) =
      Except.ok
        [{ inputNode := "body", inputName := "in", value := Value.str "S0",
           override := true },
         { inputNode := "body", inputName := "in", value := Value.str "c1",
           override := true },
         { inputNode := "body", inputName := "in", value := Value.str "c2",
           override := true },
         { inputNode := "sink", inputName := "in", value := Value.none,
           override := false }] ∧
    loopTrace.map (fun r => (r.1.fresh, r.1.counter)) = Except.ok (true, 0) :=
  ⟨rfl, rfl⟩

/-- Claim C2: for a boolean-typed input port, assigning a string default
literal via `setDefault` stores boolean true iff the literal equals `"TRUE"`
after uppercasing (and so false for every other literal), and reading such an
unconnected port with no explicit value returns that boolean. -/
theorem bool_default_coercion (p : Info) (s : String)
    (hb : p.varType = VarType.bool) :
    Info.setDefault p (Value.str s) =
      Except.ok { p with default := Value.bool (pyUpper s = "TRUE") } ∧
    (pyUpper s ≠ "TRUE" →
      Info.setDefault p (Value.str s) =
        Except.ok { p with default := Value.bool false }) ∧
    (p.valueSet = false → p.connected = false →
      InputInfo.call { p with default := Value.bool (pyUpper s = "TRUE") } false =
        Except.ok (Value.bool (pyUpper s = "TRUE")) ∧
      InputInfo.isAvailable
          { p with default := Value.bool (pyUpper s = "TRUE") } = true) := by
  have h1 : Info.setDefault p (Value.str s) =
      Except.ok { p with default := Value.bool (pyUpper s = "TRUE") } := by
    simp [Info.setDefault, hb, pyCall, Bind.bind, Except.bind]
  refine ⟨h1, fun hne => ?_, fun hvs hc => ?_⟩
  · rw [h1]
    simp [hne]
  · constructor
    · simp [InputInfo.call, hvs, hc, hb, Value.isNone, pyCall, pyTruthy]
    · simp [InputInfo.isAvailable, hvs, hc, Value.isNone]

/-- Witness for C2 at the concrete literal `"tRuE"` on a fresh bool port. -/
theorem bool_default_coercion_witness :
    Info.setDefault (mkPort "B" VarType.bool false) (Value.str "tRuE") =
      Except.ok { mkPort "B" VarType.bool false with
                    default := Value.bool (pyUpper "tRuE" = "TRUE") } ∧
    InputInfo.call { mkPort "B" VarType.bool false with
                       default := Value.bool (pyUpper "tRuE" = "TRUE") } false =
      Except.ok (Value.bool (pyUpper "tRuE" = "TRUE")) := by
  have h := bool_default_coercion (mkPort "B" VarType.bool false) "tRuE" rfl
  exact ⟨h.1, (h.2.2 rfl rfl).1⟩

/-- Claim C3: every input-port read returns the explicit value type-coerced
(element-wise for a list port, scalar-wise otherwise; coercion to `object`
is the identity) when one was set; else the default type-coerced when the
default is non-null and the port is not flagged connected; else it raises
`InputNotAvailable`, unless no-raise mode is requested, in which case it
returns a null result.  A failing coercion surfaces as that coercion's
error. -/
theorem input_read_semantics (p : Info) (noException : Bool) :
    InputInfo.call p noException =
      if p.valueSet then specTypeCoerced p.varType p.list p.value
      else if ¬ p.default.isNone ∧ ¬ p.connected then
        specDefaultCoerced p.varType p.default
      else if noException then Except.ok Value.none
      else Except.error PyError.inputNotAvailable := by
  unfold InputInfo.call specTypeCoerced specDefaultCoerced
  by_cases hv : p.valueSet
  · by_cases ho : p.varType = VarType.object <;> simp [hv, ho]
  · by_cases hd : ¬ p.default.isNone ∧ ¬ p.connected
    · by_cases ho : p.varType = VarType.object <;> simp [hv, hd, ho]
    · simp [hv, hd]

/-- Witness for C3: reading a fresh str port in no-raise mode returns the
coerced empty-string default. -/
theorem input_read_semantics_witness :
    InputInfo.call (mkPort "x" VarType.str false) true =
      Except.ok (Value.str "") := by
  have h := input_read_semantics (mkPort "x" VarType.str false) true
  rw [h]
  rfl

/-- Claim C4: a write to an already-set input without override raises
`InputAlreadySet` (the raise happens before any mutation, so the stored
value and set flag are unchanged — see the error convention in the module
docstring); a write with override always succeeds and replaces the stored
value; the stored value is the written value verbatim (no coercion or type
check at write time). -/
theorem input_write_semantics (p : Info) (v : Value) :
    (p.valueSet = true →
      InputInfo.set p v false = Except.error PyError.inputAlreadySet) ∧
    InputInfo.set p v true = Except.ok { p with value := v, valueSet := true } ∧
    (p.valueSet = false →
      InputInfo.set p v false =
        Except.ok { p with value := v, valueSet := true }) := by
  refine ⟨fun h => ?_, ?_, fun h => ?_⟩
  · simp [InputInfo.set, h]
  · simp [InputInfo.set]
  · simp [InputInfo.set, h]

/-- Witness for C4: double write without override fails, with override
replaces. -/
theorem input_write_semantics_witness :
    InputInfo.set { mkPort "x" VarType.object false with valueSet := true }
        (Value.int 5) false = Except.error PyError.inputAlreadySet ∧
    InputInfo.set { mkPort "x" VarType.object false with valueSet := true }
        (Value.int 5) true =
      Except.ok { { mkPort "x" VarType.object false with valueSet := true } with
                    value := Value.int 5, valueSet := true } := by
  have h := input_write_semantics
    { mkPort "x" VarType.object false with valueSet := true } (Value.int 5)
  exact ⟨h.1 rfl, h.2.1⟩

/-- Claim C5: the default `notify` pushes, for each outgoing connection
reported by the graph, the named output's explicit value if its set flag is
true and otherwise that output's default, into the downstream input with
override permitted; an override write always succeeds replacing any stale
value; and after propagation every input port of the notifying node is
reset. -/
theorem notify_default_semantics (inputs outputs : List Info)
    (conns : List Conn)
    (h : ∀ con ∈ conns, (getOutput outputs con.outputName).isSome) :
    Node.notify inputs outputs conns =
      Except.ok (inputs.map Info.reset,
        conns.map (fun con =>
          { inputNode := con.inputNode
            inputName := con.inputName
            value := notifyPushValue outputs con
            override := true })) ∧
    ∀ q w, InputInfo.set q w true =
      Except.ok { q with value := w, valueSet := true } := by
  constructor
  · simp [Node.notify, notifyPushes_eq outputs conns h, Bind.bind, Except.bind]
  · intro q w
    simp [InputInfo.set]

/-- Witness for C5: one connection from a set output pushes the explicit
value with override and resets the notifying node's input. -/
theorem notify_default_semantics_witness :
    Node.notify [mkPort "a" VarType.object false]
        [{ mkPort "out" VarType.object false with
             value := Value.int 9, valueSet := true }]
        [{ outputName := "out", inputNode := "n2", inputName := "a" }] =
      Except.ok ([Info.reset (mkPort "a" VarType.object false)],
        [{ inputNode := "n2", inputName := "a", value := Value.int 9,
           override := true }]) := by
  have h := notify_default_semantics [mkPort "a" VarType.object false]
    [{ mkPort "out" VarType.object false with
         value := Value.int 9, valueSet := true }]
    [{ outputName := "out", inputNode := "n2", inputName := "a" }]
    (by intro con hcon; rw [List.mem_singleton] at hcon; subst hcon; rfl)
  rw [h.1]
  rfl

/-- Claim C6: a branch node in the fresh state with `Start=S` and
`Switch=True` available: one ready cycle pushes `S` along the `True`
output's connections, never writes the `False` output, and leaves the node
in the pending-join state; after `Control=C` is set, a second ready cycle
pushes `Final=C` along `Final`'s connections and returns the node to
fresh. -/
theorem switch_branch_scenario (S C : Value) :
    (switchStep1 S).map (fun r => r.2) =
      Except.ok [{ inputNode := "t", inputName := "in", value := S,
                   override := false }] ∧
    (switchStep1 S).map (fun r =>
        (getOutput r.1.outputs "False").map (fun o => (o.valueSet, o.value))) =
      Except.ok (Option.some (false, Value.none)) ∧
    (switchStep1 S).map (fun r => r.1.fresh) = Except.ok false ∧
    (switchStep2 S C).map (fun r => r.2) =
      Except.ok [{ inputNode := "join", inputName := "in", value := C,
                   override := false }] ∧
    (switchStep2 S C).map (fun r => r.1.fresh) = Except.ok true :=
  ⟨rfl, rfl, rfl, rfl, rfl⟩

/-- Witness for C6 at `S="s"`, `C=7`. -/
theorem switch_branch_scenario_witness :
    (switchStep2 (Value.str "s") (Value.int 7)).map (fun r => r.2) =
      Except.ok [{ inputNode := "join", inputName := "in",
                   value := Value.int 7, override := false }] ∧
    (switchStep2 (Value.str "s") (Value.int 7)).map (fun r => r.1.fresh) =
      Except.ok true := by
  have h := switch_branch_scenario (Value.str "s") (Value.int 7)
  exact ⟨h.2.2.2.1, h.2.2.2.2⟩

/-- Claim C7: a for-each node over `Start=[1,2,3]` emits `ListElement` 1, 2,
3 on three successive ready cycles (each supplied with a `Control` refill),
then the following ready cycle emits `Final=[1,2,3]`, and its notify returns
the node to its initial state: counter 0, fresh true, done false. -/
theorem foreach_scenario :
    feTrace.map (fun r => r.2) =
      Except.ok
        [{ inputNode := "body", inputName := "in", value := Value.int 1,
           override := true },
         { inputNode := "body", inputName := "in", value := Value.int 2,
           override := true },
         { inputNode := "body", inputName := "in", value := Value.int 3,
           override := true },
         { inputNode := "sink", inputName := "in", value := feStart,
           override := false }] ∧
    feTrace.map (fun r => (r.1.fresh, r.1.counter, r.1.done)) =
      Except.ok (true, 0, false) :=
  ⟨rfl, rfl⟩

/-- Claim C8: `reset()` clears the default, the stored value and the set
flag; it is idempotent; and after a reset `isAvailable()` is computed from
the (now cleared) default and the connected flag only, no previously set
value contributing. -/
theorem port_reset_semantics (p : Info) :
    (Info.reset p).default = Value.none ∧
    (Info.reset p).value = Value.none ∧
    (Info.reset p).valueSet = false ∧
    Info.reset (Info.reset p) = Info.reset p ∧
    InputInfo.isAvailable (Info.reset p) =
      (!(Info.reset p).default.isNone && !(Info.reset p).connected) := by
  refine ⟨rfl, rfl, rfl, rfl, ?_⟩
  simp [Info.reset, InputInfo.isAvailable, Value.isNone]

/-- Witness for C8 on a concrete port. -/
theorem port_reset_semantics_witness :
    Info.reset (Info.reset (mkPort "x" VarType.int false)) =
      Info.reset (mkPort "x" VarType.int false) ∧
    InputInfo.isAvailable (Info.reset (mkPort "x" VarType.int false)) = false := by
  have h := port_reset_semantics (mkPort "x" VarType.int false)
  refine ⟨h.2.2.2.1, ?_⟩
  rw [h.2.2.2.2]
  rfl

/-- Counterexample to claim C9 as stated: the tag match is not
case-insensitive.  With class tag `"Node"` (the base class's actual tag) and
prefix `"N"`, the code lowercases only the tag and so returns false, while a
case-insensitive prefix match (both sides folded) is true. -/
theorem tag_match_case_sensitivity_counterexample :
    Node.matchClassTag ["Node"] "N" = false ∧
    matchClassTagSpecCI ["Node"] "N" = true :=
  ⟨by decide, by decide⟩

/-- Claim C9 as amended: the tag match is true iff some class tag,
lowercased, starts with the prefix exactly as given (the prefix is not
case-folded); the input-hint (resp. output-hint) match is true iff the
prefix equals `"object"` or some hint string of some input (resp. output)
starts with the prefix; and the combined hint match holds iff one of the
three does. -/
theorem hint_match_semantics (tags : List String) (inputs outputs : List Info)
    (text : String) :
    (Node.matchClassTag tags text = true ↔
      ∃ tag ∈ tags, pyStartsWith (pyLower tag) text = true) ∧
    (Node.matchInputHint inputs text = true ↔
      (text = "object" ∨
        ∃ inp ∈ inputs, ∃ hint ∈ inp.hints, pyStartsWith hint text = true)) ∧
    (Node.matchOutputHint outputs text = true ↔
      (text = "object" ∨
        ∃ o ∈ outputs, ∃ hint ∈ o.hints, pyStartsWith hint text = true)) ∧
    (Node.matchHint inputs outputs tags text = true ↔
      ((text = "object" ∨
        ∃ inp ∈ inputs, ∃ hint ∈ inp.hints, pyStartsWith hint text = true) ∨
       (text = "object" ∨
        ∃ o ∈ outputs, ∃ hint ∈ o.hints, pyStartsWith hint text = true) ∨
       ∃ tag ∈ tags, pyStartsWith (pyLower tag) text = true)) := by
  have htag : Node.matchClassTag tags text = true ↔
      ∃ tag ∈ tags, pyStartsWith (pyLower tag) text = true := by
    simp [Node.matchClassTag, List.any_eq_true]
  have hin : Node.matchInputHint inputs text = true ↔
      (text = "object" ∨
        ∃ inp ∈ inputs, ∃ hint ∈ inp.hints, pyStartsWith hint text = true) := by
    by_cases ht : text = "object"
    · simp [Node.matchInputHint, ht]
    · unfold Node.matchInputHint
      rw [if_neg ht]
      simp [List.any_eq_true, ht]
  have hout : Node.matchOutputHint outputs text = true ↔
      (text = "object" ∨
        ∃ o ∈ outputs, ∃ hint ∈ o.hints, pyStartsWith hint text = true) := by
    by_cases ht : text = "object"
    · simp [Node.matchOutputHint, ht]
    · unfold Node.matchOutputHint
      rw [if_neg ht]
      simp [List.any_eq_true, ht]
  refine ⟨htag, hin, hout, ?_⟩
  rw [← htag, ← hin, ← hout]
  simp [Node.matchHint, Bool.or_eq_true]
  tauto

/-- Witness for C9's amended statement: lowercase prefix `"no"` does match
tag `"Node"`. -/
theorem hint_match_semantics_witness :
    Node.matchClassTag ["Node"] "no" = true := by
  have h := hint_match_semantics ["Node"] [] [] "no"
  exact h.1.mpr ⟨"Node", by simp, by decide⟩

/-- Claim C10: an input port built from a schema entry that declares no
default carries the empty string as its default (not null); unconnected with
no explicit value it is available, and a read does not raise
`InputNotAvailable` but coerces the empty string — which for an int or float
port raises an uncaught `ValueError` (even in no-raise mode). -/
theorem schema_empty_default_read (name : String) (t : VarType)
    (hints : Option (List String)) (isList : Bool) (p : Info)
    (hp : p = Info.init name t hints (Value.str "") Option.none isList) :
    p.default = Value.str "" ∧
    InputInfo.isAvailable p = true ∧
    InputInfo.call p false ≠ Except.error PyError.inputNotAvailable ∧
    (t = VarType.int ∨ t = VarType.float →
      InputInfo.call p false = Except.error PyError.valueError ∧
      InputInfo.call p true = Except.error PyError.valueError) := by
  subst hp
  refine ⟨rfl, rfl, ?_, ?_⟩
  · cases t <;>
      simp [InputInfo.call, Info.init, Value.isNone, pyCall, pyIntOfString,
        pyFloatOfString, pyStrip, digitsToNat?, pyStr, Except.map]
  · rintro (ht | ht) <;> subst ht <;> exact ⟨rfl, rfl⟩

/-- Witness for C10 on an int port named `"Value"` (as `CreateInt` declares
one). -/
theorem schema_empty_default_read_witness :
    InputInfo.call (Info.init "Value" VarType.int Option.none (Value.str "")
        Option.none false) false = Except.error PyError.valueError ∧
    InputInfo.isAvailable (Info.init "Value" VarType.int Option.none
        (Value.str "") Option.none false) = true := by
  have h := schema_empty_default_read "Value" VarType.int Option.none false _ rfl
  exact ⟨(h.2.2.2 (Or.inl rfl)).1, h.2.1⟩
